import Mathlib

/-!
Verification of the article scoring and classification engine of
`scripts/analyze/score-articles.py`.

The five axis names of the Python code are Japanese dictionary keys; here they
are rendered as record fields with the English names used by the spec:
`時代性` = timeliness, `普遍性` = universality, `エンタメ性` = entertainment,
`リライト工数` = rewriteEffort, `リスク` = risk.
-/

namespace ScoreArticles

/-- One axis-score set: the value type of `CATEGORY_BASE_SCORES` and the
`detail_scores` produced per article. All values are Python ints. -/
structure AxisScores where
  timeliness : Int
  universality : Int
  entertainment : Int
  rewriteEffort : Int
  risk : Int
deriving DecidableEq

/-- Previously persisted scoring fields of an article record
(`article["rewrite_status"]`), written back by `main` (lines 263-265). -/
structure RewriteStatus where
  rewrite_score : Option Int
  rewrite_type : Option String
  detail_scores : Option AxisScores
deriving DecidableEq

/-- An article record as the scoring pipeline reads it. Fields the Python code
accesses with a defaulted `.get` and that may be absent are `Option`s; `title`
defaults to `""` in the code, which is observationally the same as storing the
empty string, so it is kept as a plain `String`. -/
structure Article where
  id : String
  title : String
  category : Option String
  word_count : Option Int
  year : Option Int
  rewrite_status : RewriteStatus
deriving DecidableEq

/-- Does the second list start with the first one? Helper for the Python
substring operator `in`. -/
def startsWithList : List Char → List Char → Bool
  | [], _ => true
  | _ :: _, [] => false
  | a :: as, b :: bs => a == b && startsWithList as bs

/-- Does the second list contain the first as a contiguous sublist? -/
def hasSubList (needle : List Char) : List Char → Bool
  | [] => needle.isEmpty
  | c :: rest => startsWithList needle (c :: rest) || hasSubList needle rest

/-- Python `needle in hay` on strings: contiguous substring containment. -/
def strContains (hay needle : String) : Bool :=
  hasSubList needle.data hay.data

/-- The static rule table `CATEGORY_BASE_SCORES` (lines 18-34) as an
association list: 14 string keys plus the `None` key, in source order. Axis
value order: 時代性, 普遍性, エンタメ性, リライト工数, リスク. -/
def CATEGORY_BASE_SCORES : List (Option String × AxisScores) :=
  [(some "徒然", ⟨12, 8, 10, 10, 8⟩),
   (some "レビュー", ⟨18, 12, 14, 8, 6⟩),
   (some "報告", ⟨8, 6, 8, 12, 8⟩),
   (some "東方二次創作", ⟨22, 18, 16, 12, 9⟩),
   (some "考察", ⟨20, 15, 12, 10, 9⟩),
   (some "告知", ⟨2, 3, 4, 6, 8⟩),
   (some "速報", ⟨4, 4, 6, 8, 7⟩),
   (some "生存報告", ⟨5, 4, 6, 10, 8⟩),
   (some "TRPG", ⟨18, 14, 12, 10, 9⟩),
   (some "ＴＲＰＧ", ⟨18, 14, 12, 10, 9⟩),
   (some "東方二次創作ゲームレビュー", ⟨22, 18, 16, 12, 9⟩),
   (some "募集", ⟨2, 3, 4, 5, 8⟩),
   (some "通知", ⟨2, 3, 4, 6, 8⟩),
   (some "連絡", ⟨2, 3, 4, 6, 8⟩),
   (none, ⟨10, 8, 8, 8, 7⟩)]

/-- The table entry stored under the `None` key (line 33), used as the
fallback of the defaulted dictionary access in `calculate_base_score`. -/
def CATEGORY_BASE_SCORES_default : AxisScores := ⟨10, 8, 8, 8, 7⟩

/-- The dictionary access
`CATEGORY_BASE_SCORES.get(category, CATEGORY_BASE_SCORES[None])`: the entry
stored under `category` when present, the `None` entry otherwise. -/
def CATEGORY_BASE_SCORES_get (category : Option String) : AxisScores :=
  match CATEGORY_BASE_SCORES.find? (fun kv => kv.1 == category) with
  | some kv => kv.2
  | none => CATEGORY_BASE_SCORES_default

/-- `calculate_base_score` (lines 37-48): look the category of the article up
in the rule table, falling back to the `None` entry, and return a fresh copy
of the entry. -/
def calculate_base_score (article : Article) : AxisScores :=
  CATEGORY_BASE_SCORES_get article.category

/-- `adjust_score_by_word_count` (lines 51-71). -/
def adjust_score_by_word_count (scores : AxisScores) (word_count : Int) :
    AxisScores :=
  if word_count < 300 then
    { scores with
      entertainment := max 0 (scores.entertainment - 4)
      rewriteEffort := max 0 (scores.rewriteEffort - 3) }
  else if word_count > 2000 then
    { scores with
      entertainment := min 20 (scores.entertainment + 2)
      rewriteEffort := max 0 (scores.rewriteEffort - 2) }
  else scores

/-- `adjust_score_by_year` (lines 74-94). -/
def adjust_score_by_year (scores : AxisScores) (year : Int) : AxisScores :=
  if year = 2023 then
    { scores with timeliness := 0, universality := 0, entertainment := 0 }
  else if year ≤ 2009 then
    { scores with timeliness := min 30 (scores.timeliness + 3) }
  else scores

/-- The fixed keyword list of `detect_risk_patterns` (line 111). -/
def risk_keywords : List String := ["政治", "速報", "通知", "募集", "告知"]

/-- `detect_risk_patterns` (lines 97-121). The keyword loop runs FIRST and
returns 6 on any hit; only afterwards is the 2023 "Hello world" case checked;
the default is 8. A missing year reads as `None`, which never equals 2023. -/
def detect_risk_patterns (article : Article) : Int :=
  if risk_keywords.any (fun keyword => strContains article.title keyword) then 6
  else if article.year = some 2023 ∧ strContains article.title "Hello world"
    then 10
  else 8

/-- `calculate_total_score` (lines 124-134): sum of the five axis values. -/
def calculate_total_score (scores : AxisScores) : Int :=
  scores.timeliness + scores.universality + scores.entertainment +
    scores.rewriteEffort + scores.risk

/-- `determine_rewrite_type` (lines 137-166). Returns `none` below 70;
otherwise a category-based label, falling back to a year test with the year
defaulting to 2010. -/
def determine_rewrite_type (article : Article) (total_score : Int) :
    Option String :=
  if total_score < 70 then none
  else if article.category = some "考察" ∨ article.category = some "TRPG" ∨
      article.category = some "ＴＲＰＧ" then some "哲学昇華型"
  else if article.category = some "東方二次創作" ∨
      article.category = some "東方二次創作ゲームレビュー" ∨
      article.category = some "レビュー" then some "文化史抽出型"
  else if article.category = some "徒然" ∨ article.category = some "報告" then
    some "タイムカプセル型"
  else if article.year.getD 2010 ≤ 2010 then some "タイムカプセル型"
  else some "文化史抽出型"

/-- The result dictionary returned by `score_article` (lines 195-199). -/
structure ScoreResult where
  total_score : Int
  detail_scores : AxisScores
  rewrite_type : Option String
deriving DecidableEq

/-- `score_article` (lines 169-199): base lookup, word-count adjustment
(word_count defaulting to 0), year adjustment (year defaulting to 2010), risk
override, total, rewrite type. -/
def score_article (article : Article) : ScoreResult :=
  let scores := calculate_base_score article
  let scores := adjust_score_by_word_count scores (article.word_count.getD 0)
  let scores := adjust_score_by_year scores (article.year.getD 2010)
  let scores := { scores with risk := detect_risk_patterns article }
  let total_score := calculate_total_score scores
  let rewrite_type := determine_rewrite_type article total_score
  ⟨total_score, scores, rewrite_type⟩

/-- The score persistence step of `main` (lines 263-265): write the freshly
computed values into `article["rewrite_status"]`. -/
def persist_scores (article : Article) (info : ScoreResult) : Article :=
  { article with
    rewrite_status :=
      ⟨some info.total_score, info.rewrite_type, some info.detail_scores⟩ }

/-- The four bucket lists returned by `classify_articles` (lines 233-238). -/
structure Classification where
  rewrite : List String
  review : List String
  archive : List String
  deletion : List String
deriving DecidableEq

/-- `classify_articles` (lines 202-238): walk the article list in order, skip
articles whose persisted `rewrite_score` is `None`, and append each remaining
id to the bucket selected by the 70/50/30 thresholds. -/
def classify_articles : List Article → Classification
  | [] => ⟨[], [], [], []⟩
  | article :: rest =>
    let c := classify_articles rest
    match article.rewrite_status.rewrite_score with
    | none => c
    | some score =>
      if score ≥ 70 then { c with rewrite := article.id :: c.rewrite }
      else if score ≥ 50 then { c with review := article.id :: c.review }
      else if score ≥ 30 then { c with archive := article.id :: c.archive }
      else { c with deletion := article.id :: c.deletion }

/-- The distinct axis-score values occurring in the rule table. -/
def base_entry_list : List AxisScores :=
  [⟨12, 8, 10, 10, 8⟩, ⟨18, 12, 14, 8, 6⟩, ⟨8, 6, 8, 12, 8⟩,
   ⟨22, 18, 16, 12, 9⟩, ⟨20, 15, 12, 10, 9⟩, ⟨2, 3, 4, 6, 8⟩,
   ⟨4, 4, 6, 8, 7⟩, ⟨5, 4, 6, 10, 8⟩, ⟨18, 14, 12, 10, 9⟩,
   ⟨2, 3, 4, 5, 8⟩, ⟨10, 8, 8, 8, 7⟩]

/-- The 14 string keys of the rule table, in source order. -/
def known_category_keys : List String :=
  ["徒然", "レビュー", "報告", "東方二次創作", "考察", "告知", "速報",
   "生存報告", "TRPG", "ＴＲＰＧ", "東方二次創作ゲームレビュー", "募集",
   "通知", "連絡"]

/-- Bucket predicate: persisted score present and at least 70. -/
def picks_rewrite (b : Article) : Bool :=
  match b.rewrite_status.rewrite_score with
  | some s => decide (70 ≤ s)
  | none => false

/-- Bucket predicate: persisted score present and in the interval 50 to 69. -/
def picks_review (b : Article) : Bool :=
  match b.rewrite_status.rewrite_score with
  | some s => decide (50 ≤ s) && decide (s < 70)
  | none => false

/-- Bucket predicate: persisted score present and in the interval 30 to 49. -/
def picks_archive (b : Article) : Bool :=
  match b.rewrite_status.rewrite_score with
  | some s => decide (30 ≤ s) && decide (s < 50)
  | none => false

/-- Bucket predicate: persisted score present and below 30. -/
def picks_deletion (b : Article) : Bool :=
  match b.rewrite_status.rewrite_score with
  | some s => decide (s < 30)
  | none => false

/-- A model of the Python dictionary store involved in one scoring run: the
static rule-table dictionaries (addressed through the same defaulted lookup
the code performs) and the dynamically allocated score dictionaries, addressed
by allocation order. The article record itself is passed by value because
`score_article` contains no assignment to it; the mutable objects at play are
the freshly copied score dictionary and the rule-table entries. -/
structure DictHeap where
  table : Option String → AxisScores
  next : Nat
  scratch : Nat → AxisScores

/-- The store at program start: the rule table holds the entries of the
source and nothing has been allocated yet. -/
def initHeap : DictHeap :=
  ⟨CATEGORY_BASE_SCORES_get, 0, fun _ => ⟨0, 0, 0, 0, 0⟩⟩

/-- Write one allocated score dictionary in place. -/
def heapWrite (h : DictHeap) (r : Nat) (v : AxisScores) : DictHeap :=
  ⟨h.table, h.next, fun i => if i = r then v else h.scratch i⟩

/-- `calculate_base_score` with the store explicit: read the table entry for
the category and allocate a fresh copy of it (the `.copy()` of line 48). -/
def calculate_base_score_heap (h : DictHeap) (article : Article) :
    Nat × DictHeap :=
  (h.next,
   ⟨h.table, h.next + 1,
    fun i => if i = h.next then h.table article.category else h.scratch i⟩)

/-- `score_article` with the store explicit: every adjustment mutates the
freshly allocated copy in place, never a table entry. -/
def score_article_heap (h : DictHeap) (article : Article) :
    ScoreResult × DictHeap :=
  let rh := calculate_base_score_heap h article
  let r := rh.1
  let h1 := rh.2
  let h2 := heapWrite h1 r
    (adjust_score_by_word_count (h1.scratch r) (article.word_count.getD 0))
  let h3 := heapWrite h2 r
    (adjust_score_by_year (h2.scratch r) (article.year.getD 2010))
  let h4 := heapWrite h3 r
    { h3.scratch r with risk := detect_risk_patterns article }
  let scores := h4.scratch r
  let total_score := calculate_total_score scores
  (⟨total_score, scores, determine_rewrite_type article total_score⟩, h4)

/-- Scenario A of the spec: casual essay, 150 words, year 2008. -/
def scenario_a_article : Article :=
  ⟨"scenario-a", "daily notes", some "徒然", some 150, some 2008,
   ⟨none, none, none⟩⟩

/-- A year-2023 article whose title contains both "Hello world" and the
keyword 速報. -/
def hello_world_keyword_article : Article :=
  ⟨"c1", "Hello world 速報", none, some 100, some 2023, ⟨none, none, none⟩⟩

/-- A title hitting the keyword 政治. -/
def keyword_title_article : Article :=
  ⟨"kw", "政治の話", none, none, some 2023, ⟨none, none, none⟩⟩

/-- A year-2023 "Hello world" title with no keyword. -/
def hello_only_article : Article :=
  ⟨"hw", "Hello world!", none, none, some 2023, ⟨none, none, none⟩⟩

/-- A title with neither keyword nor "Hello world". -/
def plain_title_article : Article :=
  ⟨"pl", "daily notes", none, none, some 2008, ⟨none, none, none⟩⟩

/-- A year-2023 article with a long text and a keyword title. -/
def year2023_witness_article : Article :=
  ⟨"w2023", "some title 速報", some "東方二次創作", some 5000, some 2023,
   ⟨none, none, none⟩⟩

/-- An article with a category string absent from the rule table. -/
def unknown_category_article : Article :=
  ⟨"u1", "an essay", some "日記", some 800, some 2012, ⟨none, none, none⟩⟩

/-- An article with no category at all. -/
def null_category_article : Article :=
  ⟨"u2", "another essay", none, some 500, some 2015, ⟨none, none, none⟩⟩

/-- An article carrying stale persisted scores from an earlier run. -/
def rescored_article : Article :=
  ⟨"r1", "an essay", some "考察", some 900, some 2011,
   ⟨some 50, some "哲学昇華型", some ⟨1, 2, 3, 4, 5⟩⟩⟩

/-- The same input fields as `rescored_article` with empty persisted state. -/
def fresh_article : Article :=
  ⟨"r2", "an essay", some "考察", some 900, some 2011, ⟨none, none, none⟩⟩

/-- Five articles with distinct ids, one per bucket plus one unscored. -/
def partition_articles : List Article :=
  [⟨"p1", "t1", none, none, none, ⟨some 75, none, none⟩⟩,
   ⟨"p2", "t2", none, none, none, ⟨some 55, none, none⟩⟩,
   ⟨"p3", "t3", none, none, none, ⟨some 44, none, none⟩⟩,
   ⟨"p4", "t4", none, none, none, ⟨some 10, none, none⟩⟩,
   ⟨"p5", "t5", none, none, none, ⟨none, none, none⟩⟩]

/-- A concrete article realizing the maximal composite score: secondary
creative work base, mid-length, pre-2009, safe title. -/
def max_score_article : Article :=
  ⟨"max-79", "retrospective", some "東方二次創作", some 1000, some 2008,
   ⟨none, none, none⟩⟩

/-- A year-2023 "Hello world" article: the only configuration with risk 10. -/
def risk10_article : Article :=
  ⟨"risk10", "Hello world!", some "東方二次創作", some 1000, some 2023,
   ⟨none, none, none⟩⟩

/-- A low-scoring article for the rewrite-type witness. -/
def type_none_article : Article :=
  ⟨"t1", "x", some "徒然", none, some 2008, ⟨none, none, none⟩⟩

/-- A philosophical-category article for the rewrite-type witness. -/
def type_phil_article : Article :=
  ⟨"t2", "x", some "考察", none, some 2012, ⟨none, none, none⟩⟩

/-- An article with neither category nor year for the rewrite-type witness. -/
def type_fallback_article : Article :=
  ⟨"t3", "x", none, none, none, ⟨none, none, none⟩⟩

/-- A store with three pre-existing allocations for the frame witness. -/
def frame_heap : DictHeap :=
  ⟨CATEGORY_BASE_SCORES_get, 3, fun _ => ⟨1, 1, 1, 1, 1⟩⟩

/-- Every rule-table lookup result is one of the listed entries. -/
lemma base_mem (category : Option String) :
    CATEGORY_BASE_SCORES_get category ∈ base_entry_list := by
  unfold CATEGORY_BASE_SCORES_get
  rcases hf : CATEGORY_BASE_SCORES.find? (fun kv => kv.1 == category)
    with _ | kv <;> rw [hf]
  · decide
  · have hmem := List.mem_of_find?_eq_some hf
    have hall : ∀ kv2 ∈ CATEGORY_BASE_SCORES, kv2.2 ∈ base_entry_list := by
      decide
    exact hall kv hmem

/-- Numeric facts about every rule-table entry, shared by the range proofs. -/
lemma base_facts (category : Option String) :
    0 ≤ (CATEGORY_BASE_SCORES_get category).timeliness ∧
    (CATEGORY_BASE_SCORES_get category).timeliness ≤ 22 ∧
    0 ≤ (CATEGORY_BASE_SCORES_get category).universality ∧
    (CATEGORY_BASE_SCORES_get category).universality ≤ 18 ∧
    0 ≤ (CATEGORY_BASE_SCORES_get category).entertainment ∧
    (CATEGORY_BASE_SCORES_get category).entertainment ≤ 16 ∧
    2 ≤ (CATEGORY_BASE_SCORES_get category).rewriteEffort ∧
    (CATEGORY_BASE_SCORES_get category).rewriteEffort ≤ 12 ∧
    6 ≤ (CATEGORY_BASE_SCORES_get category).risk ∧
    (CATEGORY_BASE_SCORES_get category).risk ≤ 9 ∧
    (CATEGORY_BASE_SCORES_get category).timeliness +
      (CATEGORY_BASE_SCORES_get category).universality +
      (CATEGORY_BASE_SCORES_get category).entertainment +
      (CATEGORY_BASE_SCORES_get category).rewriteEffort ≤ 68 := by
  have h := base_mem category
  generalize CATEGORY_BASE_SCORES_get category = b at h
  fin_cases h <;> decide

/-- The risk detector returns 6, 8, or (only for year-2023 articles) 10. -/
lemma detect_risk_cases (a : Article) :
    detect_risk_patterns a = 6 ∨ detect_risk_patterns a = 8 ∨
      (detect_risk_patterns a = 10 ∧ a.year = some 2023) := by
  unfold detect_risk_patterns
  split
  · exact Or.inl rfl
  · split
    · next h => exact Or.inr (Or.inr ⟨rfl, h.1⟩)
    · exact Or.inr (Or.inl rfl)

/-- The risk detector output lies between 6 and 10. -/
lemma detect_risk_bounds (a : Article) :
    6 ≤ detect_risk_patterns a ∧ detect_risk_patterns a ≤ 10 := by
  rcases detect_risk_cases a with h | h | ⟨h, _⟩ <;> rw [h] <;> decide

/-- The four buckets are the id-images of the four threshold filters. -/
lemma classify_eq (l : List Article) :
    classify_articles l =
      ⟨(l.filter picks_rewrite).map Article.id,
       (l.filter picks_review).map Article.id,
       (l.filter picks_archive).map Article.id,
       (l.filter picks_deletion).map Article.id⟩ := by
  induction l with
  | nil => rfl
  | cons a rest ih =>
    rcases h : a.rewrite_status.rewrite_score with _ | s
    · simp [classify_articles, h, ih, List.filter_cons, picks_rewrite,
        picks_review, picks_archive, picks_deletion]
    · simp only [classify_articles, h]
      split_ifs with h1 h2 h3
      · simp_all [List.filter_cons, picks_rewrite, picks_review, picks_archive,
          picks_deletion, show ¬(50 ≤ s ∧ s < 70) by omega,
          show ¬(30 ≤ s ∧ s < 50) by omega, show ¬(s < 30) by omega]
      · simp_all [List.filter_cons, picks_rewrite, picks_review, picks_archive,
          picks_deletion, show (50 ≤ s ∧ s < 70) by omega,
          show ¬(70 ≤ s) by omega, show ¬(30 ≤ s ∧ s < 50) by omega,
          show ¬(s < 30) by omega]
      · simp_all [List.filter_cons, picks_rewrite, picks_review, picks_archive,
          picks_deletion, show (30 ≤ s ∧ s < 50) by omega,
          show ¬(70 ≤ s) by omega, show ¬(50 ≤ s ∧ s < 70) by omega,
          show ¬(s < 30) by omega]
      · simp_all [List.filter_cons, picks_rewrite, picks_review, picks_archive,
          picks_deletion, show (s < 30) by omega, show ¬(70 ≤ s) by omega,
          show ¬(50 ≤ s ∧ s < 70) by omega,
          show ¬(30 ≤ s ∧ s < 50) by omega]

/-- Membership in the id-image of a filtered article list. -/
lemma mem_filter_map_id (l : List Article) (p : Article → Bool) (i : String) :
    i ∈ (l.filter p).map Article.id ↔
      ∃ b, b ∈ l ∧ p b = true ∧ b.id = i := by
  simp only [List.mem_map, List.mem_filter]
  constructor
  · rintro ⟨b, ⟨hb, hp⟩, hid⟩
    exact ⟨b, hb, hp, hid⟩
  · rintro ⟨b, hb, hp, hid⟩
    exact ⟨b, ⟨hb, hp⟩, hid⟩

/-- C1 counterexample: for the year-2023 article titled "Hello world 速報"
the keyword rule fires first and the risk score is 6, not the 10 the claimed
rule order would give. -/
theorem hello_world_keyword_counterexample :
    hello_world_keyword_article.year = some 2023 ∧
    strContains hello_world_keyword_article.title "Hello world" = true ∧
    strContains hello_world_keyword_article.title "速報" = true ∧
    detect_risk_patterns hello_world_keyword_article = 6 ∧
    detect_risk_patterns hello_world_keyword_article ≠ 10 := by
  refine ⟨rfl, by decide, by decide, by decide, by decide⟩

/-- C1 (amended): the risk detector evaluates first-match-wins in the order
keyword rule (6), then year-2023 "Hello world" rule (10), then default (8);
a keyword hit wins even for year-2023 "Hello world" titles. -/
theorem detect_risk_keyword_first (a : Article) :
    (risk_keywords.any (fun keyword => strContains a.title keyword) = true →
      detect_risk_patterns a = 6) ∧
    (risk_keywords.any (fun keyword => strContains a.title keyword) = false →
      a.year = some 2023 → strContains a.title "Hello world" = true →
      detect_risk_patterns a = 10) ∧
    (risk_keywords.any (fun keyword => strContains a.title keyword) = false →
      ¬(a.year = some 2023 ∧ strContains a.title "Hello world" = true) →
      detect_risk_patterns a = 8) := by
  unfold detect_risk_patterns
  refine ⟨fun h1 => ?_, fun h1 h2 h3 => ?_, fun h1 h2 => ?_⟩
  · rw [if_pos h1]
  · rw [if_neg (by simp [h1]), if_pos ⟨h2, h3⟩]
  · rw [if_neg (by simp [h1]), if_neg h2]

/-- C1 witness: all three rules of the amended order exercised on concrete
titles. -/
theorem detect_risk_keyword_first_witness :
    (risk_keywords.any (fun keyword =>
        strContains keyword_title_article.title keyword) = true ∧
      detect_risk_patterns keyword_title_article = 6) ∧
    (risk_keywords.any (fun keyword =>
        strContains hello_only_article.title keyword) = false ∧
      hello_only_article.year = some 2023 ∧
      strContains hello_only_article.title "Hello world" = true ∧
      detect_risk_patterns hello_only_article = 10) ∧
    (risk_keywords.any (fun keyword =>
        strContains plain_title_article.title keyword) = false ∧
      ¬(plain_title_article.year = some 2023 ∧
        strContains plain_title_article.title "Hello world" = true) ∧
      detect_risk_patterns plain_title_article = 8) :=
  ⟨⟨by decide, (detect_risk_keyword_first keyword_title_article).1 (by decide)⟩,
   ⟨by decide, by decide, by decide,
    (detect_risk_keyword_first hello_only_article).2.1 (by decide) (by decide)
      (by decide)⟩,
   ⟨by decide, by decide,
    (detect_risk_keyword_first plain_title_article).2.2 (by decide)
      (by decide)⟩⟩

/-- C2: scenario A (casual essay, 150 words, year 2008, title "daily notes")
scores axes 15/8/6/7/8, composite 44, rewrite type none, and lands in the
archive bucket after persisting. -/
theorem scenario_a_scores :
    score_article scenario_a_article = ⟨44, ⟨15, 8, 6, 7, 8⟩, none⟩ ∧
    classify_articles
        [persist_scores scenario_a_article (score_article scenario_a_article)] =
      ⟨[], [], ["scenario-a"], []⟩ := by
  refine ⟨by decide, by decide⟩

/-- C3: after the full pipeline every axis stays in its declared range:
timeliness in 0..30, universality, entertainment and rewrite effort in 0..20,
risk in 0..10. -/
theorem axis_scores_within_ranges (a : Article) :
    0 ≤ (score_article a).detail_scores.timeliness ∧
    (score_article a).detail_scores.timeliness ≤ 30 ∧
    0 ≤ (score_article a).detail_scores.universality ∧
    (score_article a).detail_scores.universality ≤ 20 ∧
    0 ≤ (score_article a).detail_scores.entertainment ∧
    (score_article a).detail_scores.entertainment ≤ 20 ∧
    0 ≤ (score_article a).detail_scores.rewriteEffort ∧
    (score_article a).detail_scores.rewriteEffort ≤ 20 ∧
    0 ≤ (score_article a).detail_scores.risk ∧
    (score_article a).detail_scores.risk ≤ 10 := by
  have hb := base_facts a.category
  have hr := detect_risk_bounds a
  simp only [score_article, calculate_base_score, adjust_score_by_word_count,
    adjust_score_by_year]
  split_ifs <;> simp_all <;> omega

/-- C4: any year-2023 article ends with timeliness, universality and
entertainment all zero, whatever the category and word count did before. -/
theorem year2023_override (a : Article) (h : a.year = some 2023) :
    (score_article a).detail_scores.timeliness = 0 ∧
    (score_article a).detail_scores.universality = 0 ∧
    (score_article a).detail_scores.entertainment = 0 := by
  have hy : a.year.getD 2010 = 2023 := by rw [h]; rfl
  simp only [score_article, calculate_base_score, adjust_score_by_word_count,
    adjust_score_by_year]
  split_ifs <;> simp_all

/-- C4 witness: the override evaluated on a long keyword-titled 2023
article. -/
theorem year2023_override_witness :
    year2023_witness_article.year = some 2023 ∧
    ((score_article year2023_witness_article).detail_scores.timeliness = 0 ∧
     (score_article year2023_witness_article).detail_scores.universality = 0 ∧
     (score_article year2023_witness_article).detail_scores.entertainment
       = 0) :=
  ⟨rfl, year2023_override year2023_witness_article rfl⟩

/-- C5: with distinct ids, an unscored article lands in no bucket and a
scored article lands in exactly the bucket its score selects through the
70/50/30 cut points. -/
theorem classify_partition (l : List Article)
    (hnd : (l.map Article.id).Nodup) (a : Article) (ha : a ∈ l) :
    (a.rewrite_status.rewrite_score = none →
      a.id ∉ (classify_articles l).rewrite ∧
      a.id ∉ (classify_articles l).review ∧
      a.id ∉ (classify_articles l).archive ∧
      a.id ∉ (classify_articles l).deletion) ∧
    (∀ s, a.rewrite_status.rewrite_score = some s →
      (a.id ∈ (classify_articles l).rewrite ↔ 70 ≤ s) ∧
      (a.id ∈ (classify_articles l).review ↔ 50 ≤ s ∧ s < 70) ∧
      (a.id ∈ (classify_articles l).archive ↔ 30 ≤ s ∧ s < 50) ∧
      (a.id ∈ (classify_articles l).deletion ↔ s < 30)) := by
  have hinj := List.inj_on_of_nodup_map hnd
  rw [classify_eq l]
  have key : ∀ p : Article → Bool,
      a.id ∈ (l.filter p).map Article.id ↔ p a = true := by
    intro p
    rw [mem_filter_map_id]
    constructor
    · rintro ⟨b, hb, hp, hid⟩
      rwa [hinj hb ha hid] at hp
    · intro hp
      exact ⟨a, ha, hp, rfl⟩
  constructor
  · intro hnone
    refine ⟨?_, ?_, ?_, ?_⟩ <;>
      rw [key] <;>
      simp [picks_rewrite, picks_review, picks_archive, picks_deletion, hnone]
  · intro s hs
    refine ⟨?_, ?_, ?_, ?_⟩ <;>
      rw [key] <;>
      simp [picks_rewrite, picks_review, picks_archive, picks_deletion, hs]

/-- C5 witness: the partition applied to the score-44 article of a concrete
five-article batch. -/
theorem classify_partition_witness :
    (partition_articles.map Article.id).Nodup ∧
    partition_articles[2] ∈ partition_articles ∧
    ((partition_articles[2].rewrite_status.rewrite_score = none →
      partition_articles[2].id ∉
        (classify_articles partition_articles).rewrite ∧
      partition_articles[2].id ∉
        (classify_articles partition_articles).review ∧
      partition_articles[2].id ∉
        (classify_articles partition_articles).archive ∧
      partition_articles[2].id ∉
        (classify_articles partition_articles).deletion) ∧
    (∀ s, partition_articles[2].rewrite_status.rewrite_score = some s →
      (partition_articles[2].id ∈
          (classify_articles partition_articles).rewrite ↔ 70 ≤ s) ∧
      (partition_articles[2].id ∈
          (classify_articles partition_articles).review ↔ 50 ≤ s ∧ s < 70) ∧
      (partition_articles[2].id ∈
          (classify_articles partition_articles).archive ↔ 30 ≤ s ∧ s < 50) ∧
      (partition_articles[2].id ∈
          (classify_articles partition_articles).deletion ↔ s < 30))) :=
  ⟨by decide, by decide,
   classify_partition partition_articles (by decide) partition_articles[2]
     (by decide)⟩

/-- C6: the rewrite-type table evaluated top-down: below 70 no label; then
the philosophical, cultural and capsule category groups; otherwise the year
test with the year defaulting to 2010 (a missing year therefore falls into
the capsule branch). -/
theorem rewrite_type_decision_table (a : Article) (total : Int) :
    (total < 70 → determine_rewrite_type a total = none) ∧
    (70 ≤ total →
      (a.category = some "考察" ∨ a.category = some "TRPG" ∨
        a.category = some "ＴＲＰＧ") →
      determine_rewrite_type a total = some "哲学昇華型") ∧
    (70 ≤ total →
      (a.category = some "東方二次創作" ∨
        a.category = some "東方二次創作ゲームレビュー" ∨
        a.category = some "レビュー") →
      determine_rewrite_type a total = some "文化史抽出型") ∧
    (70 ≤ total →
      (a.category = some "徒然" ∨ a.category = some "報告") →
      determine_rewrite_type a total = some "タイムカプセル型") ∧
    (70 ≤ total →
      a.category ≠ some "考察" → a.category ≠ some "TRPG" →
      a.category ≠ some "ＴＲＰＧ" → a.category ≠ some "東方二次創作" →
      a.category ≠ some "東方二次創作ゲームレビュー" →
      a.category ≠ some "レビュー" → a.category ≠ some "徒然" →
      a.category ≠ some "報告" →
      a.year.getD 2010 ≤ 2010 →
      determine_rewrite_type a total = some "タイムカプセル型") ∧
    (70 ≤ total →
      a.category ≠ some "考察" → a.category ≠ some "TRPG" →
      a.category ≠ some "ＴＲＰＧ" → a.category ≠ some "東方二次創作" →
      a.category ≠ some "東方二次創作ゲームレビュー" →
      a.category ≠ some "レビュー" → a.category ≠ some "徒然" →
      a.category ≠ some "報告" →
      2010 < a.year.getD 2010 →
      determine_rewrite_type a total = some "文化史抽出型") ∧
    (70 ≤ total → a.year = none →
      a.category ≠ some "考察" → a.category ≠ some "TRPG" →
      a.category ≠ some "ＴＲＰＧ" → a.category ≠ some "東方二次創作" →
      a.category ≠ some "東方二次創作ゲームレビュー" →
      a.category ≠ some "レビュー" → a.category ≠ some "徒然" →
      a.category ≠ some "報告" →
      determine_rewrite_type a total = some "タイムカプセル型") := by
  refine ⟨fun h => ?_, fun h hg => ?_, fun h hg => ?_, fun h hg => ?_,
    fun h h1 h2 h3 h4 h5 h6 h7 h8 hy => ?_,
    fun h h1 h2 h3 h4 h5 h6 h7 h8 hy => ?_,
    fun h hy h1 h2 h3 h4 h5 h6 h7 h8 => ?_⟩
  · simp [determine_rewrite_type, h]
  · rcases hg with hc | hc | hc <;>
      simp [determine_rewrite_type, hc, show ¬(total < 70) by omega]
  · rcases hg with hc | hc | hc <;>
      simp [determine_rewrite_type, hc, show ¬(total < 70) by omega]
  · rcases hg with hc | hc <;>
      simp [determine_rewrite_type, hc, show ¬(total < 70) by omega]
  · simp [determine_rewrite_type, h1, h2, h3, h4, h5, h6, h7, h8, hy,
      show ¬(total < 70) by omega]
  · simp [determine_rewrite_type, h1, h2, h3, h4, h5, h6, h7, h8,
      show ¬(total < 70) by omega]
    omega
  · simp [determine_rewrite_type, h1, h2, h3, h4, h5, h6, h7, h8, hy,
      show ¬(total < 70) by omega]

/-- C6 witness: the no-label row, a category row and the default-year
fallback row exercised on concrete articles. -/
theorem rewrite_type_decision_table_witness :
    ((44 : Int) < 70 ∧ determine_rewrite_type type_none_article 44 = none) ∧
    ((70 : Int) ≤ 75 ∧
      (type_phil_article.category = some "考察" ∨
        type_phil_article.category = some "TRPG" ∨
        type_phil_article.category = some "ＴＲＰＧ") ∧
      determine_rewrite_type type_phil_article 75 = some "哲学昇華型") ∧
    ((70 : Int) ≤ 80 ∧ type_fallback_article.year = none ∧
      determine_rewrite_type type_fallback_article 80 =
        some "タイムカプセル型") :=
  ⟨⟨by decide, (rewrite_type_decision_table type_none_article 44).1
      (by decide)⟩,
   ⟨by decide, Or.inl rfl,
    (rewrite_type_decision_table type_phil_article 75).2.1 (by decide)
      (Or.inl rfl)⟩,
   ⟨by decide, rfl,
    (rewrite_type_decision_table type_fallback_article 80).2.2.2.2.2.2
      (by decide) rfl (by decide) (by decide) (by decide) (by decide)
      (by decide) (by decide) (by decide) (by decide)⟩⟩

/-- C7: a category string outside the rule table produces exactly the same
baseline as a null category, namely the designated default entry. -/
theorem unknown_category_uses_default (c : String)
    (hc : c ∉ known_category_keys) (a b : Article)
    (ha : a.category = some c) (hb : b.category = none) :
    calculate_base_score a = calculate_base_score b ∧
    calculate_base_score a = CATEGORY_BASE_SCORES_default := by
  have hfind : CATEGORY_BASE_SCORES.find? (fun kv => kv.1 == some c)
      = none := by
    rw [List.find?_eq_none]
    intro kv hkv
    simp only [CATEGORY_BASE_SCORES, List.mem_cons, List.not_mem_nil,
      or_false] at hkv
    have hkeys : ∀ k ∈ known_category_keys, c ≠ k := by
      intro k hk he
      exact hc (he ▸ hk)
    rcases hkv with rfl | rfl | rfl | rfl | rfl | rfl | rfl | rfl | rfl | rfl |
      rfl | rfl | rfl | rfl | rfl <;> simp
    all_goals exact fun he => hkeys _ (by decide) he.symm
  have hgetb : CATEGORY_BASE_SCORES_get none = CATEGORY_BASE_SCORES_default :=
    by decide
  constructor
  · rw [calculate_base_score, calculate_base_score, ha, hb, hgetb]
    unfold CATEGORY_BASE_SCORES_get
    rw [hfind]
  · rw [calculate_base_score, ha]
    unfold CATEGORY_BASE_SCORES_get
    rw [hfind]

/-- C7 witness: the fallback evaluated on the unknown category 日記 and on a
null category. -/
theorem unknown_category_uses_default_witness :
    "日記" ∉ known_category_keys ∧
    unknown_category_article.category = some "日記" ∧
    null_category_article.category = none ∧
    (calculate_base_score unknown_category_article =
        calculate_base_score null_category_article ∧
      calculate_base_score unknown_category_article =
        CATEGORY_BASE_SCORES_default) :=
  ⟨by decide, rfl, rfl,
   unknown_category_uses_default "日記" (by decide) unknown_category_article
     null_category_article rfl rfl⟩

/-- C8: the scored result is a function of title, category, word count and
year alone, so it ignores id and previously persisted score fields, and
rescoring right after persisting reproduces the same result. -/
theorem score_article_deterministic (a b : Article)
    (ht : a.title = b.title) (hc : a.category = b.category)
    (hw : a.word_count = b.word_count) (hy : a.year = b.year) :
    score_article a = score_article b ∧
    score_article (persist_scores a (score_article a)) = score_article a := by
  obtain ⟨i1, t1, c1, w1, y1, r1⟩ := a
  obtain ⟨i2, t2, c2, w2, y2, r2⟩ := b
  simp only at ht hc hw hy
  subst ht; subst hc; subst hw; subst hy
  exact ⟨rfl, rfl⟩

/-- C8 witness: an article with stale persisted scores and a fresh copy of
the same input fields score identically, and rescoring after persisting is
stable. -/
theorem score_article_deterministic_witness :
    rescored_article.title = fresh_article.title ∧
    rescored_article.category = fresh_article.category ∧
    rescored_article.word_count = fresh_article.word_count ∧
    rescored_article.year = fresh_article.year ∧
    (score_article rescored_article = score_article fresh_article ∧
      score_article
          (persist_scores rescored_article (score_article rescored_article)) =
        score_article rescored_article) :=
  ⟨rfl, rfl, rfl, rfl,
   score_article_deterministic rescored_article fresh_article rfl rfl rfl rfl⟩

/-- C9: scoring with the dictionary store explicit never changes the rule
table or any pre-existing allocation, allocates exactly one fresh score
dictionary, and from the initial store computes exactly the pure
`score_article` result. -/
theorem score_article_heap_frame (article : Article) (h : DictHeap) (r : Nat)
    (hr : r < h.next) :
    (score_article_heap h article).2.table = h.table ∧
    (score_article_heap h article).2.scratch r = h.scratch r ∧
    (score_article_heap h article).2.next = h.next + 1 ∧
    (score_article_heap initHeap article).1 = score_article article := by
  have hne : r ≠ h.next := Nat.ne_of_lt hr
  refine ⟨rfl, ?_, rfl, ?_⟩
  · simp [score_article_heap, calculate_base_score_heap, heapWrite, hne]
  · simp [score_article_heap, calculate_base_score_heap, heapWrite, initHeap,
      score_article, calculate_base_score]

/-- C9 witness: the frame applied to cell 1 of a store with three
pre-existing allocations while scoring the scenario A article. -/
theorem score_article_heap_frame_witness :
    (1 < frame_heap.next) ∧
    ((score_article_heap frame_heap scenario_a_article).2.table =
        frame_heap.table ∧
      (score_article_heap frame_heap scenario_a_article).2.scratch 1 =
        frame_heap.scratch 1 ∧
      (score_article_heap frame_heap scenario_a_article).2.next =
        frame_heap.next + 1 ∧
      (score_article_heap initHeap scenario_a_article).1 =
        score_article scenario_a_article) :=
  ⟨by decide,
   score_article_heap_frame scenario_a_article frame_heap 1 (by decide)⟩

/-- C10 counterexample: the configuration the claim names as the maximum
(secondary creative work base with the pre-2009 bonus) reaches composite 79
with risk 8, not 81, because risk 10 exists only for year-2023 articles,
whose three zeroed axes cap the composite at 22 here. -/
theorem composite_max_81_counterexample :
    (score_article max_score_article).detail_scores.timeliness = 25 ∧
    (score_article max_score_article).detail_scores.risk = 8 ∧
    (score_article max_score_article).total_score = 79 ∧
    (score_article risk10_article).detail_scores.risk = 10 ∧
    (score_article risk10_article).total_score = 22 := by
  refine ⟨by decide, by decide, by decide, by decide, by decide⟩

/-- C10 (amended): every composite score lies in 0..100, in fact in 0..79,
and 79 is reached (secondary creative work base, pre-2009 timeliness bonus,
default risk 8). -/
theorem total_score_bounds :
    (∀ a : Article,
      0 ≤ (score_article a).total_score ∧
      (score_article a).total_score ≤ 100 ∧
      (score_article a).total_score ≤ 79) ∧
    (score_article max_score_article).total_score = 79 := by
  constructor
  · intro a
    have hb := base_facts a.category
    have hr := detect_risk_cases a
    simp only [score_article, calculate_base_score, calculate_total_score,
      adjust_score_by_word_count, adjust_score_by_year]
    rcases hr with h | h | ⟨h, hy⟩
    · split_ifs <;> simp_all <;> omega
    · split_ifs <;> simp_all <;> omega
    · have hy2 : a.year.getD 2010 = 2023 := by rw [hy]; rfl
      split_ifs <;> simp_all <;> omega
  · decide

end ScoreArticles
